import Mathlib

/-!
Verification of the response-decoding core of the cdrs Cassandra driver:
the CQL value decoders (src/types/data_serialization_types.rs) and the
ERROR-frame decoder (src/frame/frame_error.rs), shallowly embedded over
byte lists. Bytes are modelled as `Nat` (values `< 256` on the wire), a
cursor as the list of bytes not yet consumed, and every decoder returns a
`DOut`: success, a typed io-style error, or a Rust panic
(`unreachable!()` or an out-of-bounds index such as `bytes[0]`).
-/

/-- Typed decode errors produced by the modelled primitives
(spec taxonomy, restricted to what the embedded code can raise). -/
inductive DecodeErr where
  | unexpectedEof
  | invalidLength
deriving DecidableEq

/-- The outcome of running a decoder: `ok` on success, `err` for an
io-style error value, `panic` for a Rust panic such as `unreachable!()`
or an out-of-bounds slice index. -/
inductive DOut (α : Type) where
  | ok : α → DOut α
  | err : DecodeErr → DOut α
  | panic : DOut α
deriving DecidableEq

/-- Sequencing of decoders: errors and panics short-circuit. -/
def dbind {α β : Type} : DOut α → (α → DOut β) → DOut β
  | .ok a, f => f a
  | .err e, _ => .err e
  | .panic, _ => .panic

@[simp] theorem dbind_ok_left {α β : Type} (a : α) (f : α → DOut β) :
    dbind (.ok a) f = f a := rfl

@[simp] theorem dbind_err_left {α β : Type} (e : DecodeErr) (f : α → DOut β) :
    dbind (.err e) f = .err e := rfl

@[simp] theorem dbind_panic_left {α β : Type} (f : α → DOut β) :
    dbind DOut.panic f = DOut.panic := rfl

theorem dbind_ok {α β : Type} {x : DOut α} {f : α → DOut β} {b : β}
    (h : dbind x f = .ok b) : ∃ a, x = .ok a ∧ f a = .ok b := by
  cases x with
  | ok a => exact ⟨a, rfl, h⟩
  | err e => simp [dbind] at h
  | panic => simp [dbind] at h

/-- A cursor is the list of bytes not yet consumed; reads drop from the
front (sequential reads over `io::Cursor` are position-equivalent). -/
abbrev Cursor := List Nat

/-- Big-endian unsigned interpretation of a byte list. Modelled from the
spec: `from_bytes` in types/mod.rs (not under src/), "big-endian
throughout". -/
def fromBytesNat (bs : List Nat) : Nat :=
  bs.foldl (fun acc b => acc * 256 + b) 0

/-- Two's-complement signed reading of the `w`-byte unsigned value `u`. -/
def toSigned (w : Nat) (u : Nat) : Int :=
  if u < 2 ^ (8 * w - 1) then (u : Int) else (u : Int) - 2 ^ (8 * w)

/-- Modelled from the spec: the Cursor Reader capability
(`cursor_next_value` in types/mod.rs, not under src/) — read `n` bytes
and advance; exhaustion before the read completes is an end-of-buffer
failure. -/
def cursor_next_value (n : Nat) (c : Cursor) : DOut (List Nat × Cursor) :=
  if n ≤ c.length then .ok (c.take n, c.drop n) else .err .unexpectedEof

/-- `CInt` is the protocol's Int32Field. -/
abbrev CInt := Int

/-- Modelled from the spec: `CInt::from_cursor` in types/mod.rs (not
under src/) — Int32Field, 4 bytes, signed big-endian. -/
def CInt.from_cursor (c : Cursor) : DOut (CInt × Cursor) :=
  dbind (cursor_next_value 4 c) fun p =>
    .ok (toSigned 4 (fromBytesNat p.1), p.2)

/-- A `CString` is kept as its raw byte list. Lossy UTF-8 conversion is
the identity on ASCII and can never turn non-identical bytes into one of
the ASCII tag strings matched in this core, so byte-list equality is a
faithful model of the `as_str` comparisons. -/
abbrev CString := List Nat

/-- Modelled from the spec: `CString::from_cursor` in types/mod.rs (not
under src/) — a 16-bit unsigned big-endian length followed by that many
bytes. -/
def CString.from_cursor (c : Cursor) : DOut (CString × Cursor) :=
  dbind (cursor_next_value 2 c) fun p =>
  dbind (cursor_next_value (fromBytesNat p.1) p.2) fun q =>
    .ok (q.1, q.2)

/-- A `CBytes` is a BytesField: `none` is the null marker. -/
abbrev CBytes := Option (List Nat)

/-- Modelled from the spec: `CBytes::from_cursor` in types/mod.rs (not
under src/) — 4-byte signed big-endian length, `-1` denoting null,
a negative length other than the null marker being an invalid length,
otherwise that many raw bytes. -/
def CBytes.from_cursor (c : Cursor) : DOut (CBytes × Cursor) :=
  dbind (CInt.from_cursor c) fun p =>
    if p.1 = -1 then .ok (none, p.2)
    else if p.1 < 0 then .err .invalidLength
    else dbind (cursor_next_value p.1.toNat p.2) fun q =>
      .ok (some q.1, q.2)

/-- Modelled from the spec: a string list (`CStringList` elements) —
read `n` consecutive CStrings. -/
def readCStrings : Nat → Cursor → DOut (List CString × Cursor)
  | 0, c => .ok ([], c)
  | n + 1, c =>
    dbind (CString.from_cursor c) fun p =>
    dbind (readCStrings n p.2) fun q =>
      .ok (p.1 :: q.1, q.2)

/-- The protocol's StringListField. -/
abbrev CStringList := List CString

/-- Modelled from the spec: `CStringList::from_cursor` in types/mod.rs
(not under src/) — a 16-bit unsigned big-endian count followed by that
many CStrings. -/
def CStringList.from_cursor (c : Cursor) : DOut (CStringList × Cursor) :=
  dbind (cursor_next_value 2 c) fun p =>
  readCStrings (fromBytesNat p.1) p.2

/-- Consistency is defined outside this core; it is consumed as an
opaque 16-bit code. -/
structure Consistency where
  code : Nat
deriving DecidableEq

/-- Modelled from the spec: `Consistency::from_cursor` (defined outside
this core, not under src/) — decoded from a 16-bit big-endian code,
consumed here as an opaque decode capability. -/
def Consistency.from_cursor (c : Cursor) : DOut (Consistency × Cursor) :=
  dbind (cursor_next_value 2 c) fun p =>
    .ok (⟨fromBytesNat p.1⟩, p.2)

/-- Modelled from the spec: `try_i_from_bytes` in types/mod.rs (not
under src/) — arbitrary-length big-endian signed integer decode
(variable width, not fixed to 8 bytes). -/
def try_i_from_bytes (bs : List Nat) : DOut Int :=
  .ok (toSigned bs.length (fromBytesNat bs))

/-- Modelled from the spec: `from_u16_bytes` in types/mod.rs (not under
src/) — a 16-bit big-endian group, as used for inet v6. -/
def from_u16_bytes (bs : List Nat) : Nat := fromBytesNat bs

/-- `decode_boolean` (src/types/data_serialization_types.rs lines
39-46): empty input is an `UnexpectedEof` io error; otherwise the result
is whether the first byte differs from the false byte `0`. -/
def decode_boolean (bytes : List Nat) : DOut Bool :=
  match bytes with
  | [] => .err .unexpectedEof
  | b :: _ => .ok (b != 0)

/-- `decode_tinyint` (src/types/data_serialization_types.rs lines
152-154): `Ok(bytes[0] as i8)` — the index panics on an empty slice and
any bytes past the first are ignored. -/
def decode_tinyint (bytes : List Nat) : DOut Int :=
  match bytes with
  | [] => .panic
  | b :: _ => .ok (toSigned 1 b)

/-- Rust's `std::net::IpAddr` restricted to what `decode_inet`
constructs: `V4` from four bytes, `V6` from eight 16-bit groups. -/
inductive IpAddr where
  | V4 (a b c d : Nat)
  | V6 (a b c d e f g h : Nat)
deriving DecidableEq

/-- `decode_inet` (src/types/data_serialization_types.rs lines 92-110):
match on the slice length — 4 bytes build an `Ipv4Addr` from the bytes
in order, 16 bytes build an `Ipv6Addr` from eight big-endian 16-bit
groups, and every other length hits `unreachable!()`. -/
def decode_inet (bytes : List Nat) : DOut IpAddr :=
  match bytes with
  | [b0, b1, b2, b3] => .ok (.V4 b0 b1 b2 b3)
  | [b0, b1, b2, b3, b4, b5, b6, b7, b8, b9, b10, b11, b12, b13, b14, b15] =>
    .ok (.V6 (from_u16_bytes [b0, b1]) (from_u16_bytes [b2, b3])
      (from_u16_bytes [b4, b5]) (from_u16_bytes [b6, b7])
      (from_u16_bytes [b8, b9]) (from_u16_bytes [b10, b11])
      (from_u16_bytes [b12, b13]) (from_u16_bytes [b14, b15]))
  | _ => .panic

/-- `decode_decimal` (src/types/data_serialization_types.rs lines
63-79): split the payload on the separator byte `b'E'` (69), integer-
decode part 0; if that errored return the error, otherwise index part 1
— which panics when the separator was absent — and integer-decode it.
The final `f32` computation `unscaled * 10^scale` is floating point; the
model stops at the two decoded integers it is computed from. -/
def decode_decimal (bytes : List Nat) : DOut (Int × Int) :=
  let lr := bytes.splitOn 69
  match lr with
  | [] => .panic
  | l0 :: rest =>
    match try_i_from_bytes l0 with
    | .err e => .err e
    | .panic => .panic
    | .ok unscaled =>
      match rest with
      | [] => .panic
      | r :: _ =>
        match try_i_from_bytes r with
        | .err e => .err e
        | .panic => .panic
        | .ok scale => .ok (unscaled, scale)

/-- Read `n` consecutive CBytes blobs, as `(0..l).map(CBytes::from_cursor)`
does. -/
def readCBytesN : Nat → Cursor → DOut (List CBytes × Cursor)
  | 0, c => .ok ([], c)
  | n + 1, c =>
    dbind (CBytes.from_cursor c) fun p =>
    dbind (readCBytesN n p.2) fun q =>
      .ok (p.1 :: q.1, q.2)

/-- Read `n` consecutive (key-blob, value-blob) pairs, as
`(0..l).map(|_| (CBytes::from_cursor, CBytes::from_cursor))` does. -/
def readCBytesPairsN : Nat → Cursor → DOut (List (CBytes × CBytes) × Cursor)
  | 0, c => .ok ([], c)
  | n + 1, c =>
    dbind (CBytes.from_cursor c) fun k =>
    dbind (CBytes.from_cursor k.2) fun v =>
    dbind (readCBytesPairsN n v.2) fun q =>
      .ok ((k.1, v.1) :: q.1, q.2)

/-- `decode_list` (src/types/data_serialization_types.rs lines
121-126): read a `CInt` count `l` from a fresh cursor over the bytes,
then collect `(0..l)` CBytes blobs in read order (`Int.toNat` matches
Rust's empty `Range` for a non-positive `l`). -/
def decode_list (bytes : List Nat) : DOut (List CBytes) :=
  dbind (CInt.from_cursor bytes) fun p =>
  dbind (readCBytesN p.1.toNat p.2) fun q =>
    .ok q.1

/-- `decode_set` (src/types/data_serialization_types.rs lines 129-134):
the body is the same as `decode_list`, token for token. -/
def decode_set (bytes : List Nat) : DOut (List CBytes) :=
  dbind (CInt.from_cursor bytes) fun p =>
  dbind (readCBytesN p.1.toNat p.2) fun q =>
    .ok q.1

/-- `decode_map` (src/types/data_serialization_types.rs lines 137-144):
read a `CInt` count `l`, then collect `(0..l)` (key, value) CBytes pairs
in read order, with no key deduplication. -/
def decode_map (bytes : List Nat) : DOut (List (CBytes × CBytes)) :=
  dbind (CInt.from_cursor bytes) fun p =>
  dbind (readCBytesPairsN p.1.toNat p.2) fun q =>
    .ok q.1

/-- Is used if error does not contain any additional info
(src/frame/frame_error.rs lines 106-113). -/
structure SimpleError where
deriving DecidableEq

/-- `SimpleError::from_cursor` (src/frame/frame_error.rs): reads
nothing. -/
def SimpleError.from_cursor (c : Cursor) : DOut (SimpleError × Cursor) :=
  .ok (⟨⟩, c)

/-- Additional info about an unavailable exception
(src/frame/frame_error.rs lines 118-126). -/
structure UnavailableError where
  cl : Consistency
  required : CInt
  alive : CInt
deriving DecidableEq

/-- `UnavailableError::from_cursor` (src/frame/frame_error.rs lines
128-140): consistency, then `required`, then `alive`, in that order. -/
def UnavailableError.from_cursor (c : Cursor) : DOut (UnavailableError × Cursor) :=
  dbind (Consistency.from_cursor c) fun cl =>
  dbind (CInt.from_cursor cl.2) fun required =>
  dbind (CInt.from_cursor required.2) fun alive =>
    .ok (⟨cl.1, required.1, alive.1⟩, alive.2)

/-- Describes the type of the write that failed
(src/frame/frame_error.rs lines 302-317). -/
inductive WriteType where
  | Simple
  | Batch
  | UnloggedBatch
  | Counter
  | BatchLog
deriving DecidableEq

/-- ASCII bytes of the tag SIMPLE. -/
def tagSimple : List Nat := [83, 73, 77, 80, 76, 69]

/-- ASCII bytes of the tag BATCH. -/
def tagBatch : List Nat := [66, 65, 84, 67, 72]

/-- ASCII bytes of the tag UNLOGGED_BATCH. -/
def tagUnloggedBatch : List Nat :=
  [85, 78, 76, 79, 71, 71, 69, 68, 95, 66, 65, 84, 67, 72]

/-- ASCII bytes of the tag COUNTER. -/
def tagCounter : List Nat := [67, 79, 85, 78, 84, 69, 82]

/-- ASCII bytes of the tag BATCH_LOG. -/
def tagBatchLog : List Nat := [66, 65, 84, 67, 72, 95, 76, 79, 71]

/-- ASCII bytes of the tag BOGUS (not one of the five write types). -/
def tagBogus : List Nat := [66, 79, 71, 85, 83]

/-- `WriteType::from_cursor` (src/frame/frame_error.rs lines 319-330):
read a CString and match it against the five fixed tags; any other tag
hits `unreachable!()`. -/
def WriteType.from_cursor (c : Cursor) : DOut (WriteType × Cursor) :=
  dbind (CString.from_cursor c) fun p =>
    if p.1 = tagSimple then .ok (.Simple, p.2)
    else if p.1 = tagBatch then .ok (.Batch, p.2)
    else if p.1 = tagUnloggedBatch then .ok (.UnloggedBatch, p.2)
    else if p.1 = tagCounter then .ok (.Counter, p.2)
    else if p.1 = tagBatchLog then .ok (.BatchLog, p.2)
    else .panic

/-- Timeout exception during a write request
(src/frame/frame_error.rs lines 143-153). -/
structure WriteTimeoutError where
  cl : Consistency
  received : CInt
  blockfor : CInt
  write_type : WriteType
deriving DecidableEq

/-- `WriteTimeoutError::from_cursor` (src/frame/frame_error.rs lines
155-169). -/
def WriteTimeoutError.from_cursor (c : Cursor) : DOut (WriteTimeoutError × Cursor) :=
  dbind (Consistency.from_cursor c) fun cl =>
  dbind (CInt.from_cursor cl.2) fun received =>
  dbind (CInt.from_cursor received.2) fun blockfor =>
  dbind (WriteType.from_cursor blockfor.2) fun wt =>
    .ok (⟨cl.1, received.1, blockfor.1, wt.1⟩, wt.2)

/-- Timeout exception during a read request
(src/frame/frame_error.rs lines 172-181); `data_present` is the raw
one-byte flag, kept private in the source and exposed only through
`replica_has_responded`. -/
structure ReadTimeoutError where
  cl : Consistency
  received : CInt
  blockfor : CInt
  data_present : Nat
deriving DecidableEq

/-- `ReadTimeoutError::replica_has_responded` (src/frame/frame_error.rs
lines 183-188): nonzero raw flag means the replica responded. -/
def ReadTimeoutError.replica_has_responded (e : ReadTimeoutError) : Bool :=
  e.data_present != 0

/-- `ReadTimeoutError::from_cursor` (src/frame/frame_error.rs lines
190-203): consistency, received, blockfor, then one raw byte read via
`cursor_next_value` and cast to `u8`. -/
def ReadTimeoutError.from_cursor (c : Cursor) : DOut (ReadTimeoutError × Cursor) :=
  dbind (Consistency.from_cursor c) fun cl =>
  dbind (CInt.from_cursor cl.2) fun received =>
  dbind (CInt.from_cursor received.2) fun blockfor =>
  dbind (cursor_next_value 1 blockfor.2) fun dp =>
    .ok (⟨cl.1, received.1, blockfor.1, fromBytesNat dp.1 % 256⟩, dp.2)

/-- A non-timeout exception during a read request
(src/frame/frame_error.rs lines 206-217). -/
structure ReadFailureError where
  cl : Consistency
  received : CInt
  blockfor : CInt
  num_failures : CInt
  data_present : Nat
deriving DecidableEq

/-- `ReadFailureError::replica_has_responded` (src/frame/frame_error.rs
lines 219-224). -/
def ReadFailureError.replica_has_responded (e : ReadFailureError) : Bool :=
  e.data_present != 0

/-- `ReadFailureError::from_cursor` (src/frame/frame_error.rs lines
226-241). -/
def ReadFailureError.from_cursor (c : Cursor) : DOut (ReadFailureError × Cursor) :=
  dbind (Consistency.from_cursor c) fun cl =>
  dbind (CInt.from_cursor cl.2) fun received =>
  dbind (CInt.from_cursor received.2) fun blockfor =>
  dbind (CInt.from_cursor blockfor.2) fun nf =>
  dbind (cursor_next_value 1 nf.2) fun dp =>
    .ok (⟨cl.1, received.1, blockfor.1, nf.1, fromBytesNat dp.1 % 256⟩, dp.2)

/-- A (user defined) function failed during execution
(src/frame/frame_error.rs lines 244-252). -/
structure FunctionFailureError where
  keyspace : CString
  function : CString
  arg_types : CStringList
deriving DecidableEq

/-- `FunctionFailureError::from_cursor` (src/frame/frame_error.rs lines
254-265): keyspace, function, then the argument-type string list. -/
def FunctionFailureError.from_cursor (c : Cursor) : DOut (FunctionFailureError × Cursor) :=
  dbind (CString.from_cursor c) fun ks =>
  dbind (CString.from_cursor ks.2) fun fn =>
  dbind (CStringList.from_cursor fn.2) fun ats =>
    .ok (⟨ks.1, fn.1, ats.1⟩, ats.2)

/-- A non-timeout exception during a write request
(src/frame/frame_error.rs lines 269-281). -/
structure WriteFailureError where
  cl : Consistency
  received : CInt
  blockfor : CInt
  num_failures : CInt
  write_type : WriteType
deriving DecidableEq

/-- `WriteFailureError::from_cursor` (src/frame/frame_error.rs lines
283-298). -/
def WriteFailureError.from_cursor (c : Cursor) : DOut (WriteFailureError × Cursor) :=
  dbind (Consistency.from_cursor c) fun cl =>
  dbind (CInt.from_cursor cl.2) fun received =>
  dbind (CInt.from_cursor received.2) fun blockfor =>
  dbind (CInt.from_cursor blockfor.2) fun nf =>
  dbind (WriteType.from_cursor nf.2) fun wt =>
    .ok (⟨cl.1, received.1, blockfor.1, nf.1, wt.1⟩, wt.2)

/-- The query attempted to create a keyspace or a table that already
exists (src/frame/frame_error.rs lines 334-341). -/
structure AlreadyExistsError where
  ks : CString
  table : CString
deriving DecidableEq

/-- `AlreadyExistsError::from_cursor` (src/frame/frame_error.rs lines
343-353). -/
def AlreadyExistsError.from_cursor (c : Cursor) : DOut (AlreadyExistsError × Cursor) :=
  dbind (CString.from_cursor c) fun ks =>
  dbind (CString.from_cursor ks.2) fun table =>
    .ok (⟨ks.1, table.1⟩, table.2)

/-- A prepared statement ID unknown to the host
(src/frame/frame_error.rs lines 359-363). -/
structure UnpreparedError where
  id : CBytes
deriving DecidableEq

/-- `UnpreparedError::from_cursor` (src/frame/frame_error.rs lines
365-371). -/
def UnpreparedError.from_cursor (c : Cursor) : DOut (UnpreparedError × Cursor) :=
  dbind (CBytes.from_cursor c) fun id =>
    .ok (⟨id.1⟩, id.2)

/-- Additional error info, one variant per error code
(src/frame/frame_error.rs lines 47-67). -/
inductive AdditionalErrorInfo where
  | Server (e : SimpleError)
  | Protocol (e : SimpleError)
  | Authentication (e : SimpleError)
  | Unavailable (e : UnavailableError)
  | Overloaded (e : SimpleError)
  | IsBootstrapping (e : SimpleError)
  | Truncate (e : SimpleError)
  | WriteTimeout (e : WriteTimeoutError)
  | ReadTimeout (e : ReadTimeoutError)
  | ReadFailure (e : ReadFailureError)
  | FunctionFailure (e : FunctionFailureError)
  | WriteFailure (e : WriteFailureError)
  | Syntax (e : SimpleError)
  | Unauthorized (e : SimpleError)
  | Invalid (e : SimpleError)
  | Config (e : SimpleError)
  | AlreadyExists (e : AlreadyExistsError)
  | Unprepared (e : UnpreparedError)
deriving DecidableEq

/-- Wrap a sub-decoder's output into the chosen
`AdditionalErrorInfo` variant. -/
def mapInfo {α : Type} (x : DOut (α × Cursor))
    (f : α → AdditionalErrorInfo) : DOut (AdditionalErrorInfo × Cursor) :=
  match x with
  | .ok p => .ok (f p.1, p.2)
  | .err e => .err e
  | .panic => .panic

theorem mapInfo_ok {α : Type} {x : DOut (α × Cursor)}
    {f : α → AdditionalErrorInfo} {info : AdditionalErrorInfo} {c : Cursor}
    (h : mapInfo x f = .ok (info, c)) :
    ∃ a, x = .ok (a, c) ∧ info = f a := by
  cases x with
  | ok p =>
    obtain ⟨a, c0⟩ := p
    simp only [mapInfo, DOut.ok.injEq, Prod.mk.injEq] at h
    exact ⟨a, by rw [h.2], h.1.symm⟩
  | err e => simp [mapInfo] at h
  | panic => simp [mapInfo] at h

/-- `AdditionalErrorInfo::from_cursor_with_code`
(src/frame/frame_error.rs lines 69-103): an 18-way dispatch over the
numeric error code, falling through to `unreachable!()` on any code not
in the table. -/
def AdditionalErrorInfo.from_cursor_with_code (c : Cursor) (error_code : CInt) :
    DOut (AdditionalErrorInfo × Cursor) :=
  if error_code = 0x0000 then mapInfo (SimpleError.from_cursor c) .Server
  else if error_code = 0x000A then mapInfo (SimpleError.from_cursor c) .Protocol
  else if error_code = 0x0100 then mapInfo (SimpleError.from_cursor c) .Authentication
  else if error_code = 0x1000 then mapInfo (UnavailableError.from_cursor c) .Unavailable
  else if error_code = 0x1001 then mapInfo (SimpleError.from_cursor c) .Overloaded
  else if error_code = 0x1002 then mapInfo (SimpleError.from_cursor c) .IsBootstrapping
  else if error_code = 0x1003 then mapInfo (SimpleError.from_cursor c) .Truncate
  else if error_code = 0x1100 then mapInfo (WriteTimeoutError.from_cursor c) .WriteTimeout
  else if error_code = 0x1200 then mapInfo (ReadTimeoutError.from_cursor c) .ReadTimeout
  else if error_code = 0x1300 then mapInfo (ReadFailureError.from_cursor c) .ReadFailure
  else if error_code = 0x1400 then mapInfo (FunctionFailureError.from_cursor c) .FunctionFailure
  else if error_code = 0x1500 then mapInfo (WriteFailureError.from_cursor c) .WriteFailure
  else if error_code = 0x2000 then mapInfo (SimpleError.from_cursor c) .Syntax
  else if error_code = 0x2100 then mapInfo (SimpleError.from_cursor c) .Unauthorized
  else if error_code = 0x2200 then mapInfo (SimpleError.from_cursor c) .Invalid
  else if error_code = 0x2300 then mapInfo (SimpleError.from_cursor c) .Config
  else if error_code = 0x2400 then mapInfo (AlreadyExistsError.from_cursor c) .AlreadyExists
  else if error_code = 0x2500 then mapInfo (UnpreparedError.from_cursor c) .Unprepared
  else .panic

/-- The error code the section-3 table assigns to each
`AdditionalErrorInfo` variant. -/
def variantCode : AdditionalErrorInfo → CInt
  | .Server _ => 0x0000
  | .Protocol _ => 0x000A
  | .Authentication _ => 0x0100
  | .Unavailable _ => 0x1000
  | .Overloaded _ => 0x1001
  | .IsBootstrapping _ => 0x1002
  | .Truncate _ => 0x1003
  | .WriteTimeout _ => 0x1100
  | .ReadTimeout _ => 0x1200
  | .ReadFailure _ => 0x1300
  | .FunctionFailure _ => 0x1400
  | .WriteFailure _ => 0x1500
  | .Syntax _ => 0x2000
  | .Unauthorized _ => 0x2100
  | .Invalid _ => 0x2200
  | .Config _ => 0x2300
  | .AlreadyExists _ => 0x2400
  | .Unprepared _ => 0x2500

/-- The decoded ERROR frame body (src/frame/frame_error.rs lines
21-29). -/
structure CDRSError where
  error_code : CInt
  message : CString
  additional_info : AdditionalErrorInfo
deriving DecidableEq

/-- `CDRSError::from_cursor` (src/frame/frame_error.rs lines 31-42):
error code, then message, then the additional info selected by the
code, all from the same cursor. -/
def CDRSError.from_cursor (c : Cursor) : DOut (CDRSError × Cursor) :=
  dbind (CInt.from_cursor c) fun code =>
  dbind (CString.from_cursor code.2) fun msg =>
  dbind (AdditionalErrorInfo.from_cursor_with_code msg.2 code.1) fun info =>
    .ok (⟨code.1, msg.1, info.1⟩, info.2)

/-- Big-endian encoding of `v` into `w` bytes (most significant
first). -/
def beBytes : Nat → Nat → List Nat
  | 0, _ => []
  | w + 1, v => beBytes w (v / 256) ++ [v % 256]

theorem length_beBytes (w v : Nat) : (beBytes w v).length = w := by
  induction w generalizing v with
  | zero => rfl
  | succ w ih => simp [beBytes, ih]

theorem fromBytesNat_append_one (xs : List Nat) (b : Nat) :
    fromBytesNat (xs ++ [b]) = fromBytesNat xs * 256 + b := by
  simp [fromBytesNat, List.foldl_append]

theorem fromBytesNat_beBytes {w v : Nat} (h : v < 256 ^ w) :
    fromBytesNat (beBytes w v) = v := by
  induction w generalizing v with
  | zero =>
    have : v = 0 := by simpa using h
    subst this; rfl
  | succ w ih =>
    have hd : v / 256 < 256 ^ w := by
      apply Nat.div_lt_of_lt_mul
      calc v < 256 ^ (w + 1) := h
        _ = 256 * 256 ^ w := by ring
    rw [beBytes, fromBytesNat_append_one, ih hd]
    omega

theorem cursor_next_value_append (xs rest : List Nat) :
    cursor_next_value xs.length (xs ++ rest) = .ok (xs, rest) := by
  rw [cursor_next_value, if_pos (by simp)]
  simp

theorem CInt_from_cursor_beBytes {v : Nat} (h : v < 2 ^ 32) (rest : Cursor) :
    CInt.from_cursor (beBytes 4 v ++ rest) = .ok (toSigned 4 v, rest) := by
  have h4 := cursor_next_value_append (beBytes 4 v) rest
  rw [length_beBytes] at h4
  rw [CInt.from_cursor, h4, dbind_ok_left,
    fromBytesNat_beBytes (show v < 256 ^ 4 by norm_num at h ⊢; omega)]

theorem toSigned_four_small {v : Nat} (h : v < 2 ^ 31) :
    toSigned 4 v = (v : Int) := by
  rw [toSigned, if_pos (by norm_num at h ⊢; omega)]

/-- The wire encoding of a non-null BytesField: 4-byte big-endian
length, then the raw bytes. -/
def encodeCBytes (b : List Nat) : List Nat := beBytes 4 b.length ++ b

theorem CBytes_from_cursor_encode {b : List Nat} (h : b.length < 2 ^ 31)
    (rest : Cursor) :
    CBytes.from_cursor (encodeCBytes b ++ rest) = .ok (some b, rest) := by
  have h32 : b.length < 2 ^ 32 := lt_trans h (by norm_num)
  have hne : ¬((b.length : Int) = -1) := by omega
  have hnl : ¬((b.length : Int) < 0) := by omega
  rw [encodeCBytes, List.append_assoc, CBytes.from_cursor,
    CInt_from_cursor_beBytes h32, dbind_ok_left]
  simp only [toSigned_four_small h, if_neg hne, if_neg hnl, Int.toNat_natCast]
  rw [cursor_next_value_append b rest, dbind_ok_left]

/-- The wire encoding of a StringField: 2-byte big-endian length, then
the raw bytes. -/
def encodeCString (s : List Nat) : List Nat := beBytes 2 s.length ++ s

theorem CString_from_cursor_encode {s : List Nat} (h : s.length < 2 ^ 16)
    (rest : Cursor) :
    CString.from_cursor (encodeCString s ++ rest) = .ok (s, rest) := by
  have h2 := cursor_next_value_append (beBytes 2 s.length) (s ++ rest)
  rw [length_beBytes] at h2
  rw [encodeCString, List.append_assoc, CString.from_cursor, h2, dbind_ok_left,
    fromBytesNat_beBytes (show s.length < 256 ^ 2 by norm_num at h ⊢; omega),
    cursor_next_value_append s rest, dbind_ok_left]

/-- Concatenated wire encodings of a sequence of non-null blobs. -/
def encodeBlobs : List (List Nat) → List Nat
  | [] => []
  | b :: bs => encodeCBytes b ++ encodeBlobs bs

theorem readCBytesN_encode {bs : List (List Nat)}
    (h : ∀ b ∈ bs, b.length < 2 ^ 31) (rest : Cursor) :
    readCBytesN bs.length (encodeBlobs bs ++ rest) = .ok (bs.map some, rest) := by
  induction bs generalizing rest with
  | nil => simp [readCBytesN, encodeBlobs]
  | cons b bs ih =>
    have hb : b.length < 2 ^ 31 := h b (List.mem_cons_self b bs)
    have hbs : ∀ x ∈ bs, x.length < 2 ^ 31 := fun x hx => h x (List.mem_cons_of_mem b hx)
    rw [encodeBlobs, List.append_assoc]
    show readCBytesN (bs.length + 1) _ = _
    rw [readCBytesN, CBytes_from_cursor_encode hb, dbind_ok_left, ih hbs, dbind_ok_left]
    simp

/-- Concatenated wire encodings of a sequence of (key, value) blob
pairs. -/
def encodePairs : List (List Nat × List Nat) → List Nat
  | [] => []
  | p :: ps => encodeCBytes p.1 ++ (encodeCBytes p.2 ++ encodePairs ps)

theorem readCBytesPairsN_encode {ps : List (List Nat × List Nat)}
    (h : ∀ p ∈ ps, p.1.length < 2 ^ 31 ∧ p.2.length < 2 ^ 31) (rest : Cursor) :
    readCBytesPairsN ps.length (encodePairs ps ++ rest)
      = .ok (ps.map (fun p => (some p.1, some p.2)), rest) := by
  induction ps generalizing rest with
  | nil => simp [readCBytesPairsN, encodePairs]
  | cons p ps ih =>
    have hp := h p (List.mem_cons_self p ps)
    have hps : ∀ x ∈ ps, x.1.length < 2 ^ 31 ∧ x.2.length < 2 ^ 31 :=
      fun x hx => h x (List.mem_cons_of_mem p hx)
    rw [encodePairs, List.append_assoc, List.append_assoc]
    show readCBytesPairsN (ps.length + 1) _ = _
    rw [readCBytesPairsN, CBytes_from_cursor_encode hp.1, dbind_ok_left,
      CBytes_from_cursor_encode hp.2, dbind_ok_left, ih hps, dbind_ok_left]
    simp

theorem ite_ok {α : Type} {c : Prop} [Decidable c] {t e : DOut α} {b : α}
    (h : (if c then t else e) = .ok b) :
    (c ∧ t = .ok b) ∨ (¬c ∧ e = .ok b) := by
  by_cases hc : c
  · rw [if_pos hc] at h
    exact .inl ⟨hc, h⟩
  · rw [if_neg hc] at h
    exact .inr ⟨hc, h⟩

theorem from_cursor_with_code_variant {c : Cursor} {code : CInt}
    {p : AdditionalErrorInfo × Cursor}
    (h : AdditionalErrorInfo.from_cursor_with_code c code = .ok p) :
    variantCode p.1 = code := by
  rw [AdditionalErrorInfo.from_cursor_with_code] at h
  repeat
    rcases ite_ok h with ⟨hc, h⟩ | ⟨-, h⟩
    · obtain ⟨a, -, hi⟩ := mapInfo_ok h
      rw [hi, hc]
      rfl
  exact DOut.noConfusion h

/-- C1: the claim says an unrecognized error code (e.g. 0x9999) yields a
typed UnknownDiscriminant decode failure and never panics; the code's
dispatch instead falls into its `unreachable!()` default arm, i.e. the
embedded decoder reaches the panic outcome for every cursor state. -/
theorem unknown_error_code_hits_unreachable :
    ∀ c : Cursor, AdditionalErrorInfo.from_cursor_with_code c 0x9999 = .panic :=
  fun _ => rfl

/-- C2: the five fixed tag strings decode to their matching WriteType
variants, but an unknown tag such as BOGUS does not produce a typed
failure as the claim requires — it hits the `unreachable!()` arm. -/
theorem write_type_tag_dispatch :
    (∀ rest : Cursor,
      WriteType.from_cursor (encodeCString tagSimple ++ rest) = .ok (.Simple, rest)) ∧
    (∀ rest : Cursor,
      WriteType.from_cursor (encodeCString tagBatch ++ rest) = .ok (.Batch, rest)) ∧
    (∀ rest : Cursor,
      WriteType.from_cursor (encodeCString tagUnloggedBatch ++ rest)
        = .ok (.UnloggedBatch, rest)) ∧
    (∀ rest : Cursor,
      WriteType.from_cursor (encodeCString tagCounter ++ rest) = .ok (.Counter, rest)) ∧
    (∀ rest : Cursor,
      WriteType.from_cursor (encodeCString tagBatchLog ++ rest) = .ok (.BatchLog, rest)) ∧
    (∀ rest : Cursor,
      WriteType.from_cursor (encodeCString tagBogus ++ rest) = .panic) := by
  refine ⟨?_, ?_, ?_, ?_, ?_, ?_⟩
  · intro rest
    rw [WriteType.from_cursor, @CString_from_cursor_encode tagSimple (by decide) rest,
      dbind_ok_left]
    simp [tagSimple]
  · intro rest
    rw [WriteType.from_cursor, @CString_from_cursor_encode tagBatch (by decide) rest,
      dbind_ok_left]
    simp [tagSimple, tagBatch]
  · intro rest
    rw [WriteType.from_cursor, @CString_from_cursor_encode tagUnloggedBatch (by decide) rest,
      dbind_ok_left]
    simp [tagSimple, tagBatch, tagUnloggedBatch]
  · intro rest
    rw [WriteType.from_cursor, @CString_from_cursor_encode tagCounter (by decide) rest,
      dbind_ok_left]
    simp [tagSimple, tagBatch, tagUnloggedBatch, tagCounter]
  · intro rest
    rw [WriteType.from_cursor, @CString_from_cursor_encode tagBatchLog (by decide) rest,
      dbind_ok_left]
    simp [tagSimple, tagBatch, tagUnloggedBatch, tagCounter, tagBatchLog]
  · intro rest
    rw [WriteType.from_cursor, @CString_from_cursor_encode tagBogus (by decide) rest,
      dbind_ok_left]
    simp [tagSimple, tagBatch, tagUnloggedBatch, tagCounter, tagBatchLog, tagBogus]

/-- C3: a 4-byte slice decodes to the IPv4 address of the four bytes in
order and a 16-byte slice to the IPv6 address of eight big-endian 16-bit
groups, but any other length does not produce a typed failure as the
claim requires — it hits `unreachable!()` (shown at a 5-byte slice). -/
theorem decode_inet_length_dispatch :
    (∀ a b c d : Nat, decode_inet [a, b, c, d] = .ok (.V4 a b c d)) ∧
    (∀ a b c d e f g h i j k l m n o p : Nat,
      decode_inet [a, b, c, d, e, f, g, h, i, j, k, l, m, n, o, p]
        = .ok (.V6 (a * 256 + b) (c * 256 + d) (e * 256 + f) (g * 256 + h)
            (i * 256 + j) (k * 256 + l) (m * 256 + n) (o * 256 + p))) ∧
    decode_inet [10, 0, 0, 1, 0] = .panic := by
  refine ⟨fun a b c d => rfl, ?_, rfl⟩
  intro a b c d e f g h i j k l m n o p
  simp [decode_inet, from_u16_bytes, fromBytesNat]

/-- C4: the claim says every fixed-width decoder fails with
InvalidLength on a length mismatch, in particular that tinyint fails
rather than panicking on an empty or over-long slice; `decode_tinyint`
instead panics (out-of-bounds `bytes[0]`) on the empty slice and
silently succeeds on an over-long slice. -/
theorem decode_tinyint_ignores_length :
    decode_tinyint [] = .panic ∧ decode_tinyint [1, 2] = .ok 1 ∧
      decode_tinyint [255] = .ok (-1) := by
  decide

/-- C5: the boolean decoder fails with an end-of-buffer error on the
empty slice and succeeds on every non-empty slice, returning whether the
first byte is nonzero. -/
theorem decode_boolean_first_byte :
    decode_boolean [] = .err .unexpectedEof ∧
    (∀ (b : Nat) (bs : List Nat), decode_boolean (b :: bs) = .ok (b != 0)) ∧
    decode_boolean [0] = .ok false ∧
    decode_boolean [1] = .ok true ∧
    decode_boolean [7] = .ok true :=
  ⟨rfl, fun _ _ => rfl, rfl, rfl, rfl⟩

/-- C6: a payload with a well-formed separator splits into the unscaled
and scale integers, but a payload lacking the separator (e.g. the single
byte 48) does not produce a typed InvalidEncoding failure as the claim
requires — indexing the missing second part panics. -/
theorem decode_decimal_missing_separator :
    decode_decimal [2, 69, 3] = .ok (2, 3) ∧ decode_decimal [48] = .panic := by
  decide

/-- C7: every ErrorReport the decoder returns satisfies the invariant
that its additional-info variant is exactly the variant the section-3
table assigns to its error code. -/
theorem error_report_code_determines_variant :
    ∀ (buf : Cursor) (p : CDRSError × Cursor),
      CDRSError.from_cursor buf = .ok p →
      variantCode p.1.additional_info = p.1.error_code := by
  intro buf p h
  rw [CDRSError.from_cursor] at h
  obtain ⟨code, hc, h⟩ := dbind_ok h
  obtain ⟨msg, hm, h⟩ := dbind_ok h
  obtain ⟨info, hi, h⟩ := dbind_ok h
  cases h
  exact from_cursor_with_code_variant hi

/-- Witness for C7 at a concrete server-error buffer: code 0x0000 with
an empty message decodes to a report whose variant code matches its
error code. -/
theorem error_report_code_determines_variant_witness :
    variantCode (CDRSError.mk 0 [] (.Server ⟨⟩)).additional_info
      = (CDRSError.mk 0 [] (.Server ⟨⟩)).error_code :=
  error_report_code_determines_variant [0, 0, 0, 0, 0, 0]
    (⟨0, [], .Server ⟨⟩⟩, []) (by decide)

/-- C8: on a well-formed buffer the list decoder returns exactly the
count-prefixed blobs in read order, and the map decoder returns exactly
the count-prefixed (key, value) pairs in read order, duplicates and all
(the statement quantifies over arbitrary pair sequences). -/
theorem decode_list_map_roundtrip :
    (∀ bs : List (List Nat), bs.length < 2 ^ 31 →
      (∀ b ∈ bs, b.length < 2 ^ 31) →
      decode_list (beBytes 4 bs.length ++ encodeBlobs bs) = .ok (bs.map some)) ∧
    (∀ ps : List (List Nat × List Nat), ps.length < 2 ^ 31 →
      (∀ p ∈ ps, p.1.length < 2 ^ 31 ∧ p.2.length < 2 ^ 31) →
      decode_map (beBytes 4 ps.length ++ encodePairs ps)
        = .ok (ps.map fun p => (some p.1, some p.2))) := by
  constructor
  · intro bs h1 h2
    have h32 : bs.length < 2 ^ 32 := lt_trans h1 (by norm_num)
    rw [decode_list, CInt_from_cursor_beBytes h32, dbind_ok_left]
    simp only [toSigned_four_small h1, Int.toNat_natCast]
    have hr := readCBytesN_encode h2 ([] : Cursor)
    rw [List.append_nil] at hr
    rw [hr, dbind_ok_left]
  · intro ps h1 h2
    have h32 : ps.length < 2 ^ 32 := lt_trans h1 (by norm_num)
    rw [decode_map, CInt_from_cursor_beBytes h32, dbind_ok_left]
    simp only [toSigned_four_small h1, Int.toNat_natCast]
    have hr := readCBytesPairsN_encode h2 ([] : Cursor)
    rw [List.append_nil] at hr
    rw [hr, dbind_ok_left]

/-- Witness for C8: a two-blob list buffer and a one-pair map buffer
decode to exactly those blobs and that pair, in order. -/
theorem decode_list_map_roundtrip_witness :
    decode_list (beBytes 4 2 ++ encodeBlobs [[9], [8, 7]])
      = .ok [some [9], some [8, 7]] ∧
    decode_map (beBytes 4 1 ++ encodePairs [([4], [5])])
      = .ok [(some [4], some [5])] :=
  ⟨decode_list_map_roundtrip.1 [[9], [8, 7]] (by decide) (by decide),
   decode_list_map_roundtrip.2 [([4], [5])] (by decide) (by decide)⟩

/-- C9: whenever the leading 32-bit signed count prefix decodes to a
negative value, the list, set, and map decoders all succeed with the
empty sequence — the negative count is never reported as an error. -/
theorem negative_count_decodes_empty :
    ∀ (bytes : List Nat) (l : CInt) (c : Cursor),
      CInt.from_cursor bytes = .ok (l, c) → l < 0 →
      decode_list bytes = .ok [] ∧ decode_set bytes = .ok [] ∧
        decode_map bytes = .ok [] := by
  intro bytes l c h hneg
  have ht : l.toNat = 0 := Int.toNat_of_nonpos (le_of_lt hneg)
  refine ⟨?_, ?_, ?_⟩ <;>
    simp [decode_list, decode_set, decode_map, h, ht, readCBytesN, readCBytesPairsN]

/-- Witness for C9: a buffer whose count prefix is -1 decodes to the
empty list, set, and map. -/
theorem negative_count_decodes_empty_witness :
    decode_list [255, 255, 255, 255] = .ok [] ∧
      decode_set [255, 255, 255, 255] = .ok [] ∧
      decode_map [255, 255, 255, 255] = .ok [] :=
  negative_count_decodes_empty [255, 255, 255, 255] (-1) [] (by decide) (by decide)

/-- C10: the list decoder and the set decoder are extensionally equal:
on every input byte slice they return identical results, so set decoding
deduplicates nothing and preserves read order exactly as list decoding
does. -/
theorem decode_set_eq_decode_list :
    ∀ bytes : List Nat, decode_list bytes = decode_set bytes :=
  fun _ => rfl
